import Mathlib

/-
Verification of the CHIP-8 interpreter core (src/chip8.c, src/chip8.h).

The machine state and the fetch/decode/execute cycle are embedded shallowly:
arrays become total functions `Nat → Nat` holding byte / 16-bit values,
`stackPointer` becomes the offset `stackPointerOfs` from the base of the
stack, and C integer conversions (int → uint8, int → uint16) become explicit
`% 256` / `% 65536` at the stores where the C code performs them.
The process-global `rand()` stream and the static locals of the FX0A case
are lifted into explicit state fields, as the design notes of the spec
prescribe for testability; no claim below depends on them.
-/

set_option maxRecDepth 16384

namespace Chip8Emu

-- Constants from src/chip8.h lines 6-18.
def WINDOW_WIDTH : Nat := 64
def WINDOW_HEIGHT : Nat := 32
def NUM_REGISTERS : Nat := 16
def RAM_SIZE : Nat := 0x1000
def STACK_SIZE : Nat := 0x40
def FONT_SIZE : Nat := 0x200
def KEYS : Nat := 16

-- Emulator run state, chip8.h line 54: QUIT = 0, PAUSED, RUNNING.
inductive EmuState where
  | quit
  | paused
  | running
deriving DecidableEq

-- Decoded instruction, chip8.h lines 44-51.
structure Instruction where
  raw : Nat
  nnn : Nat
  n : Nat
  x : Nat
  y : Nat
  kk : Nat

-- Machine state, chip8.h lines 57-71.  `stackPointerOfs` models
-- `stackPointer - stack`; `rand` models the next value of the process-global
-- rand() stream read by opcode 0xC; `keyPressed` / `keyLatch` model the
-- static locals `keyPressed` / `key` of the FX0A case (chip8.c lines 489-490).
structure Chip8 where
  frameBuffer : Nat → Nat
  V : Nat → Nat
  stack : Nat → Nat
  ram : Nat → Nat
  keypad : Nat → Nat
  indexRegister : Nat
  stackPointerOfs : Nat
  programCounter : Nat
  delayTimer : Nat
  soundTimer : Nat
  draw : Nat
  instruction : Instruction
  state : EmuState
  rand : Nat
  keyPressed : Nat
  keyLatch : Nat

-- Pointwise array update (C assignment `a[i] = v`).
def upd (f : Nat → Nat) (i v : Nat) : Nat → Nat := fun j => if j = i then v else f j

-- chip8.c lines 164-167: decrement each timer if it is nonzero.
def updateTimers (s : Chip8) : Chip8 :=
  { s with
    delayTimer := if s.delayTimer ≠ 0 then s.delayTimer - 1 else s.delayTimer
    soundTimer := if s.soundTimer ≠ 0 then s.soundTimer - 1 else s.soundTimer }

-- chip8.c lines 190-209: the font initializer list.  The C array is declared
-- with FONT_SIZE (= 0x200) elements; the 70 listed bytes are followed by
-- zero-initialized elements, and memcpy copies FONT_SIZE bytes to ram[0..].
def font : List Nat :=
  [0xF0, 0x90, 0x90, 0x90, 0xF0,
   0x20, 0x60, 0x20, 0x20, 0x70,
   0xF0, 0x10, 0xF0, 0x80, 0xF0,
   0xF0, 0x10, 0xF0, 0x10, 0xF0,
   0x90, 0x90, 0xF0, 0x10, 0x10,
   0xF0, 0x80, 0xF0, 0x10, 0xF0,
   0xF0, 0x80, 0xF0, 0x90, 0xF0,
   0xF0, 0x10, 0x20, 0x40, 0x40,
   0xF0, 0x90, 0xF0, 0x90, 0xF0,
   0xF0, 0x90, 0xF0, 0x10, 0xF0,
   0xF0, 0x80, 0x80, 0x80, 0xF0,
   0xE0, 0x90, 0x90, 0x90, 0xE0,
   0xF0, 0x80, 0xF0, 0x80, 0xF0,
   0xF0, 0x80, 0xF0, 0x80, 0x80]

def loadFont (s : Chip8) : Chip8 :=
  { s with ram := fun a => if a < FONT_SIZE then font.getD a 0 else s.ram a }

-- chip8.c lines 178-188: stack pointer to the base of the stack, font
-- loaded, state RUNNING.
def initChip8 (s : Chip8) : Chip8 :=
  { loadFont { s with stackPointerOfs := 0 } with state := EmuState.running }

-- chip8.c lines 211-236: the ROM bytes are copied verbatim to ram starting
-- at 0x200 and the program counter is pointed at 0x200.  The file read is
-- abstracted to the byte list `rom`.
def loadRom (rom : List Nat) (s : Chip8) : Chip8 :=
  { s with
    ram := fun a =>
      if 0x200 ≤ a ∧ a < 0x200 + rom.length then rom.getD (a - 0x200) 0 else s.ram a
    programCounter := 0x200 }

-- chip8.c lines 682-696: fetch the big-endian 16-bit word at the program
-- counter, advance the program counter by 2 (uint16), extract the fields.
def nextInstruction (s : Chip8) : Chip8 :=
  let raw := (((s.ram s.programCounter) <<< 8) ||| s.ram (s.programCounter + 1)) % 65536
  { s with
    programCounter := (s.programCounter + 2) % 65536
    instruction :=
      { raw := raw
        nnn := raw &&& 0x0FFF
        n := raw &&& 0x000F
        x := (raw >>> 8) &&& 0x000F
        y := (raw >>> 4) &&& 0x000F
        kk := raw &&& 0x00FF } }

-- chip8.c lines 445-458, the inner column loop of the 0xDXYN case.  The
-- fuel argument is the C loop variable j: the body runs for j = 7 down to
-- j = 1 (the loop condition is j > 0), the sprite bit is the masked value
-- `spriteByte & (1 << j)`, the flag is forced to 1 on collision, the cell
-- is XORed with the masked value, and the loop breaks once ++dx reaches 64.
def drawBits (sb dy : Nat) : Nat → Nat → (Nat → Nat) → Nat → ((Nat → Nat) × Nat)
  | 0, _, fb, vf => (fb, vf)
  | j + 1, dx, fb, vf =>
    let bit := sb &&& (1 <<< (j + 1))
    let cell := dy * WINDOW_WIDTH + dx
    let vf2 := if bit ≠ 0 ∧ fb cell ≠ 0 then 1 else vf
    let fb2 := fun c => if c = cell then fb c ^^^ bit else fb c
    if dx + 1 ≥ WINDOW_WIDTH then (fb2, vf2) else drawBits sb dy j (dx + 1) fb2 vf2

-- chip8.c lines 441-460, the row loop of the 0xDXYN case: the sprite byte
-- of row i is ram[indexRegister + i], dx restarts at the saved x each row,
-- and the loop breaks once ++dy reaches 32.
def drawRows (ram : Nat → Nat) (idx x0 : Nat) :
    Nat → Nat → Nat → (Nat → Nat) → Nat → ((Nat → Nat) × Nat)
  | 0, _, _, fb, vf => (fb, vf)
  | k + 1, i, dy, fb, vf =>
    let p := drawBits (ram (idx + i)) dy 7 x0 fb vf
    if dy + 1 ≥ WINDOW_HEIGHT then p else drawRows ram idx x0 k (i + 1) (dy + 1) p.1 p.2

-- chip8.c lines 430-462, the 0xDXYN case: origin (V[X] % 64, V[Y] % 32),
-- V[0xF] cleared then set by the loop on collision, draw flag set.
def execDraw (s : Chip8) : Chip8 :=
  let dx0 := s.V s.instruction.x % WINDOW_WIDTH
  let dy0 := s.V s.instruction.y % WINDOW_HEIGHT
  let p := drawRows s.ram s.indexRegister dx0 s.instruction.n 0 dy0 s.frameBuffer 0
  { s with frameBuffer := p.1, V := upd s.V 0xF p.2, draw := 1 }

-- chip8.c lines 352-409, the 0x8 family, dispatched on the low nibble.
-- The flag write of cases 5/6/7/E happens before the destination write,
-- so the destination write reads the already-updated register file.
def exec8 (s : Chip8) : Chip8 :=
  let ins := s.instruction
  if ins.n = 0x0 then { s with V := upd s.V ins.x (s.V ins.y) }
  else if ins.n = 0x1 then { s with V := upd s.V ins.x ((s.V ins.x ||| s.V ins.y) % 256) }
  else if ins.n = 0x2 then { s with V := upd s.V ins.x ((s.V ins.x &&& s.V ins.y) % 256) }
  else if ins.n = 0x3 then { s with V := upd s.V ins.x ((s.V ins.x ^^^ s.V ins.y) % 256) }
  else if ins.n = 0x4 then
    let carry := if s.V ins.x + s.V ins.y > 0xFF then 1 else 0
    let v1 := upd s.V ins.x ((s.V ins.x + s.V ins.y) % 256)
    { s with V := upd v1 0xF carry }
  else if ins.n = 0x5 then
    let v1 := upd s.V 0xF (if s.V ins.x > s.V ins.y then 1 else 0)
    { s with V := upd v1 ins.x ((v1 ins.x + 256 - v1 ins.y) % 256) }
  else if ins.n = 0x6 then
    let v1 := upd s.V 0xF (s.V ins.x &&& 1)
    { s with V := upd v1 ins.x ((v1 ins.x >>> 1) % 256) }
  else if ins.n = 0x7 then
    let v1 := upd s.V 0xF (if s.V ins.y > s.V ins.x then 1 else 0)
    { s with V := upd v1 ins.x ((v1 ins.y + 256 - v1 ins.x) % 256) }
  else if ins.n = 0xE then
    let v1 := upd s.V 0xF ((s.V ins.x >>> 7) &&& 1)
    { s with V := upd v1 ins.x ((v1 ins.x <<< 1) % 256) }
  else s

-- chip8.c lines 464-479, the 0xE family (key skips).
def execE (s : Chip8) : Chip8 :=
  let ins := s.instruction
  if ins.kk = 0x9E then
    if s.keypad (s.V ins.x) ≠ 0 then
      { s with programCounter := (s.programCounter + 2) % 65536 }
    else s
  else if ins.kk = 0xA1 then
    if s.keypad (s.V ins.x) = 0 then
      { s with programCounter := (s.programCounter + 2) % 65536 }
    else s
  else s

-- chip8.c lines 540-544: store V[0] .. V[x] to ram starting at the index
-- register (fuel k counts the remaining iterations).
def storeRegs (V : Nat → Nat) (idx : Nat) : Nat → Nat → (Nat → Nat) → (Nat → Nat)
  | 0, _, ram => ram
  | k + 1, i, ram => storeRegs V idx k (i + 1) (upd ram (idx + i) (V i))

-- chip8.c lines 546-550: load ram starting at the index register into
-- V[0] .. V[x].
def loadRegs (ram : Nat → Nat) (idx : Nat) : Nat → Nat → (Nat → Nat) → (Nat → Nat)
  | 0, _, V => V
  | k + 1, i, V => loadRegs ram idx k (i + 1) (upd V i (ram (idx + i)))

-- chip8.c lines 487-511, the FX0A case with its static locals lifted into
-- the state: scan the keypad only while the latch is empty (key == 0xFF),
-- then either rewind the program counter by 2 or capture the key.
def execWaitKey (s : Chip8) : Chip8 :=
  let scan :=
    if s.keyLatch = 0xFF then
      match (List.range KEYS).find? (fun i => s.keypad i != 0) with
      | some i => (1, i)
      | none => (s.keyPressed, s.keyLatch)
    else (s.keyPressed, s.keyLatch)
  if scan.1 = 0 then
    { s with programCounter := (s.programCounter + 65534) % 65536
             keyPressed := scan.1, keyLatch := scan.2 }
  else
    if s.keypad scan.2 = 0 then
      { s with programCounter := (s.programCounter + 65534) % 65536
               keyPressed := scan.1, keyLatch := scan.2 }
    else
      { s with V := upd s.V s.instruction.x scan.2
               keyPressed := 0, keyLatch := 0xFF }

-- chip8.c lines 481-552, the 0xF family, dispatched on the low byte.
def execF (s : Chip8) : Chip8 :=
  let ins := s.instruction
  if ins.kk = 0x07 then { s with V := upd s.V ins.x s.delayTimer }
  else if ins.kk = 0x0A then execWaitKey s
  else if ins.kk = 0x15 then { s with delayTimer := s.V ins.x }
  else if ins.kk = 0x18 then { s with soundTimer := s.V ins.x }
  else if ins.kk = 0x1E then
    { s with indexRegister := (s.indexRegister + s.V ins.x) % 65536 }
  else if ins.kk = 0x29 then
    { s with indexRegister := (s.V ins.x * 5) % 65536 }
  else if ins.kk = 0x33 then
    let v := s.V ins.x
    let r1 := upd s.ram (s.indexRegister + 2) (v % 10)
    let r2 := upd r1 (s.indexRegister + 1) ((v / 10) % 10)
    { s with ram := upd r2 s.indexRegister ((v / 10 / 10) % 256) }
  else if ins.kk = 0x55 then
    { s with ram := storeRegs s.V s.indexRegister (ins.x + 1) 0 s.ram }
  else if ins.kk = 0x65 then
    { s with V := loadRegs s.ram s.indexRegister (ins.x + 1) 0 s.V }
  else s

-- chip8.c lines 297-558: the decode/execute switch of emulateInstruction,
-- dispatched on the top 4 bits of the fetched word.
def execute (s : Chip8) : Chip8 :=
  let ins := s.instruction
  let op := ins.raw >>> 12
  if op = 0x0 then
    if ins.kk = 0xE0 then { s with frameBuffer := fun _ => 0, draw := 1 }
    else if ins.kk = 0xEE then
      { s with stackPointerOfs := s.stackPointerOfs - 1
               programCounter := s.stack (s.stackPointerOfs - 1) }
    else s
  else if op = 0x1 then { s with programCounter := ins.nnn }
  else if op = 0x2 then
    { s with stack := upd s.stack s.stackPointerOfs s.programCounter
             stackPointerOfs := s.stackPointerOfs + 1
             programCounter := ins.nnn }
  else if op = 0x3 then
    if s.V ins.x = ins.kk then
      { s with programCounter := (s.programCounter + 2) % 65536 }
    else s
  else if op = 0x4 then
    if s.V ins.x ≠ ins.kk then
      { s with programCounter := (s.programCounter + 2) % 65536 }
    else s
  else if op = 0x5 then
    if s.V ins.x = s.V ins.y then
      { s with programCounter := (s.programCounter + 2) % 65536 }
    else s
  else if op = 0x6 then { s with V := upd s.V ins.x ins.kk }
  else if op = 0x7 then { s with V := upd s.V ins.x ((s.V ins.x + ins.kk) % 256) }
  else if op = 0x8 then exec8 s
  else if op = 0x9 then
    if s.V ins.x ≠ s.V ins.y then
      { s with programCounter := (s.programCounter + 2) % 65536 }
    else s
  else if op = 0xA then { s with indexRegister := ins.nnn }
  else if op = 0xB then { s with programCounter := (ins.nnn + s.V 0x0) % 65536 }
  else if op = 0xC then { s with V := upd s.V ins.x ((s.rand % 256) &&& ins.kk) }
  else if op = 0xD then execDraw s
  else if op = 0xE then execE s
  else if op = 0xF then execF s
  else s

-- chip8.c lines 297-301: fetch, then decode/execute.
def emulateInstruction (s : Chip8) : Chip8 :=
  execute (nextInstruction s)

-- The zero-initialized aggregate `Chip8 chip8 = {0}` of main (chip8.c
-- line 19); state QUIT is the zero enumerator.  The lifted FX0A statics
-- carry their static initializers (keyPressed = CHIP8_KEY_UP, key = 0xFF).
def zeroChip8 : Chip8 :=
  { frameBuffer := fun _ => 0
    V := fun _ => 0
    stack := fun _ => 0
    ram := fun _ => 0
    keypad := fun _ => 0
    indexRegister := 0
    stackPointerOfs := 0
    programCounter := 0
    delayTimer := 0
    soundTimer := 0
    draw := 0
    instruction := { raw := 0, nnn := 0, n := 0, x := 0, y := 0, kk := 0 }
    state := EmuState.quit
    rand := 0
    keyPressed := 0
    keyLatch := 0xFF }

-- All 64*32 cells of the pixel buffer are off.
def allOff (fb : Nat → Nat) : Bool :=
  (List.range (WINDOW_WIDTH * WINDOW_HEIGHT)).all (fun i => fb i == 0)

-- The XOR mask that a run of the column loop applies to cell c.  The mask
-- depends only on the sprite byte, the row, the loop counters and the cell,
-- never on the buffer contents: the buffer influences only the collision
-- flag, not which value is XORed where.
def bitsMask (sb dy : Nat) : Nat → Nat → Nat → Nat
  | 0, _, _ => 0
  | j + 1, dx, c =>
    let bit := if c = dy * WINDOW_WIDTH + dx then sb &&& (1 <<< (j + 1)) else 0
    if dx + 1 ≥ WINDOW_WIDTH then bit else bit ^^^ bitsMask sb dy j (dx + 1) c

-- The XOR mask that a run of the row loop applies to cell c.
def rowsMask (ram : Nat → Nat) (idx x0 : Nat) : Nat → Nat → Nat → Nat → Nat
  | 0, _, _, _ => 0
  | k + 1, i, dy, c =>
    if dy + 1 ≥ WINDOW_HEIGHT then bitsMask (ram (idx + i)) dy 7 x0 c
    else bitsMask (ram (idx + i)) dy 7 x0 c ^^^ rowsMask ram idx x0 k (i + 1) (dy + 1) c

-- C1: a draw state with the sprite byte 0x01 at ram[0x300] (only bit 0 set),
-- pixel (7,0) already on, origin (0,0), instruction 0xD001 at 0x200.
def c1state : Chip8 :=
  { zeroChip8 with
    state := EmuState.running
    programCounter := 0x200
    indexRegister := 0x300
    frameBuffer := fun c => if c = 7 then 1 else 0
    ram := fun a =>
      if a = 0x200 then 0xD0 else if a = 0x201 then 0x01 else
      if a = 0x300 then 0x01 else 0 }

-- C2: a chain of 17 subroutine calls: the instruction at 0x200 + 2k is
-- 0x2NNN with NNN = 0x202 + 2k, so each call jumps to the next call.
def c2state : Chip8 :=
  { zeroChip8 with
    state := EmuState.running
    programCounter := 0x200
    ram := fun a =>
      if 0x200 ≤ a ∧ a ≤ 0x221 then (if a % 2 = 0 then 0x22 else a - 0x1FF) else 0 }

-- C3: the program A300 D011 A301 D231 draws sprite byte 0x40 at (0,0) and
-- then sprite byte 0x80 at (1,0); both sprite rows put a 1-bit on cell 1.
def c3state : Chip8 :=
  { zeroChip8 with
    state := EmuState.running
    programCounter := 0x200
    V := fun r => if r = 2 then 1 else 0
    ram := fun a =>
      if a = 0x200 then 0xA3 else if a = 0x201 then 0x00 else
      if a = 0x202 then 0xD0 else if a = 0x203 then 0x11 else
      if a = 0x204 then 0xA3 else if a = 0x205 then 0x01 else
      if a = 0x206 then 0xD2 else if a = 0x207 then 0x31 else
      if a = 0x300 then 0x40 else if a = 0x301 then 0x80 else 0 }

-- C4: the initialized machine about to execute the font-pointer instruction
-- 0xF029 with V[0] = 0xC.
def c4state : Chip8 :=
  { initChip8 zeroChip8 with
    V := fun r => if r = 0 then 0xC else 0
    instruction := { raw := 0xF029, nnn := 0x029, n := 9, x := 0, y := 2, kk := 0x29 } }

-- C5: index_register 0xFFF and V[0] = 0xFF, about to run F01E (add V[0]
-- to the index register) and then F033 (BCD write at the index register).
def c5state : Chip8 :=
  { zeroChip8 with
    state := EmuState.running
    programCounter := 0x200
    indexRegister := 0xFFF
    V := fun r => if r = 0 then 0xFF else 0
    ram := fun a =>
      if a = 0x200 then 0xF0 else if a = 0x201 then 0x1E else
      if a = 0x202 then 0xF0 else if a = 0x203 then 0x33 else 0 }

-- C6: the spec's end-to-end program loaded through initChip8 and loadRom.
def c6state : Chip8 :=
  loadRom [0x60, 0x05, 0x61, 0x06, 0x80, 0x14, 0x00, 0xE0] (initChip8 zeroChip8)

-- C7: the subtract 0x8015 with equal operands V[0] = V[1] = 5.
def c7state : Chip8 :=
  { zeroChip8 with
    state := EmuState.running
    V := fun r => if r = 0 ∨ r = 1 then 5 else 0
    instruction := { raw := 0x8015, nnn := 0x015, n := 5, x := 0, y := 1, kk := 0x15 } }

-- C7 witness input: the subtract 0x8015 with V[0] = 7, V[1] = 3.
def c7wit : Chip8 :=
  { zeroChip8 with
    state := EmuState.running
    V := fun r => if r = 0 then 7 else if r = 1 then 3 else 0
    instruction := { raw := 0x8015, nnn := 0x015, n := 5, x := 0, y := 1, kk := 0x15 } }

-- C8 witness input: draw sprite byte 0xFF at (0,0) onto a buffer whose
-- cell 0 already holds 2.
def c8wit : Chip8 :=
  { zeroChip8 with
    state := EmuState.running
    indexRegister := 0x300
    frameBuffer := fun c => if c = 0 then 2 else 0
    ram := fun a => if a = 0x300 then 0xFF else 0
    instruction := { raw := 0xD011, nnn := 0x011, n := 1, x := 0, y := 1, kk := 0x11 } }

-- C9: a machine whose delay timer is 3.
def c9state : Chip8 :=
  { zeroChip8 with delayTimer := 3 }

-- C10 witness input: the add 0x8F14 with V[0xF] = 200, V[1] = 100.
def c10wit : Chip8 :=
  { zeroChip8 with
    state := EmuState.running
    V := fun r => if r = 0xF then 200 else if r = 1 then 100 else 0
    instruction := { raw := 0x8F14, nnn := 0xF14, n := 4, x := 0xF, y := 1, kk := 0x14 } }

/- ------------------------------------------------------------------ -/
/- Theorems                                                            -/
/- ------------------------------------------------------------------ -/

@[simp] theorem upd_same (f : Nat → Nat) (i v : Nat) : upd f i v i = v := by
  simp [upd]

theorem upd_of_ne (f : Nat → Nat) {j i : Nat} (v : Nat) (h : j ≠ i) :
    upd f i v j = f j := by
  simp [upd, h]

theorem drawBits_fst (sb dy : Nat) :
    ∀ (j dx : Nat) (fb : Nat → Nat) (vf c : Nat),
      (drawBits sb dy j dx fb vf).1 c = fb c ^^^ bitsMask sb dy j dx c := by
  intro j
  induction j with
  | zero => intro dx fb vf c; simp [drawBits, bitsMask]
  | succ j ih =>
    intro dx fb vf c
    by_cases hdx : dx + 1 ≥ WINDOW_WIDTH
    · by_cases hc : c = dy * WINDOW_WIDTH + dx <;>
        simp [drawBits, bitsMask, hdx, hc]
    · by_cases hc : c = dy * WINDOW_WIDTH + dx <;>
        simp [drawBits, bitsMask, hdx, hc, ih, Nat.xor_assoc]

theorem drawRows_fst (ram : Nat → Nat) (idx x0 : Nat) :
    ∀ (k i dy : Nat) (fb : Nat → Nat) (vf c : Nat),
      (drawRows ram idx x0 k i dy fb vf).1 c = fb c ^^^ rowsMask ram idx x0 k i dy c := by
  intro k
  induction k with
  | zero => intro i dy fb vf c; simp [drawRows, rowsMask]
  | succ k ih =>
    intro i dy fb vf c
    by_cases hdy : dy + 1 ≥ WINDOW_HEIGHT
    · simp [drawRows, rowsMask, hdy, drawBits_fst]
    · simp [drawRows, rowsMask, hdy, ih, drawBits_fst, Nat.xor_assoc]

theorem execute_call (t : Chip8) (h : t.instruction.raw >>> 12 = 0x2) :
    execute t = { t with stack := upd t.stack t.stackPointerOfs t.programCounter
                         stackPointerOfs := t.stackPointerOfs + 1
                         programCounter := t.instruction.nnn } := by
  simp [execute, h]

theorem updateTimers_delay (s : Chip8) :
    (updateTimers s).delayTimer = s.delayTimer - 1 ∧
    (updateTimers s).soundTimer = s.soundTimer - 1 := by
  constructor <;> (simp only [updateTimers]; split <;> omega)

theorem updateTimers_iterate (n : Nat) : ∀ s : Chip8,
    (updateTimers^[n] s).delayTimer = s.delayTimer - n ∧
    (updateTimers^[n] s).soundTimer = s.soundTimer - n := by
  induction n with
  | zero => intro s; simp
  | succ n ih =>
    intro s
    rw [Function.iterate_succ_apply]
    have h1 := updateTimers_delay s
    have h2 := ih (updateTimers s)
    omega

/-- C1 (code_bug): executing 0xD001 with sprite byte 0x01 (only bit 0 set,
which per the claim is the rightmost of 8 pixels) over a buffer whose pixel
(7,0) is already on leaves the buffer and the flag untouched: the code's
column loop runs for j = 7 down to 1 only, so bit 0 of every sprite row is
never drawn and never collides, contradicting the claim that each byte is
drawn as 8 pixels, bit 7 leftmost through bit 0 rightmost, with the
collision flag covering the whole sprite. -/
theorem chip8_C1_bit_zero_never_drawn :
    (emulateInstruction c1state).instruction.raw = 0xD001 ∧
    c1state.ram 0x300 = 0x01 ∧
    c1state.frameBuffer 7 = 1 ∧
    (emulateInstruction c1state).frameBuffer 7 = 1 ∧
    (emulateInstruction c1state).V 0xF = 0 := by
  decide

/-- C2 counterexample: a chain of seventeen 0x2NNN calls pushes all
seventeen return addresses: after the sixteenth call the stack holds 16
entries, the seventeenth call still succeeds (depth 17, slot 16 written)
and the machine stays in the Running state rather than entering any fatal
stack-overflow condition. -/
theorem chip8_C2_seventeenth_push_succeeds :
    (emulateInstruction^[16] c2state).stackPointerOfs = 16 ∧
    (emulateInstruction^[17] c2state).stackPointerOfs = 17 ∧
    (emulateInstruction^[17] c2state).state = EmuState.running ∧
    (emulateInstruction^[17] c2state).stack 16 = 0x222 := by
  decide

/-- C2 (amended): a subroutine call always pushes, with no capacity check:
for every machine state whose fetched word has top nibble 0x2, one
emulateInstruction step increments the stack depth by one, writes the
post-fetch program counter into the slot at the old depth, jumps to the
instruction's address field, and leaves the run state unchanged — in
particular a call made when the stack already holds 16 return addresses
pushes a seventeenth entry instead of failing fatally. -/
theorem chip8_C2_call_always_pushes (s : Chip8)
    (h : (nextInstruction s).instruction.raw >>> 12 = 0x2) :
    (emulateInstruction s).stackPointerOfs = s.stackPointerOfs + 1 ∧
    (emulateInstruction s).stack s.stackPointerOfs = (s.programCounter + 2) % 65536 ∧
    (emulateInstruction s).state = s.state ∧
    (emulateInstruction s).programCounter = (nextInstruction s).instruction.nnn := by
  have he := execute_call (nextInstruction s) h
  unfold emulateInstruction
  rw [he]
  refine ⟨?_, ?_, ?_, ?_⟩ <;> simp [nextInstruction, upd]

/-- C2 witness: the push theorem applied to the concrete 17-call machine. -/
theorem chip8_C2_call_always_pushes_witness :
    (emulateInstruction c2state).stackPointerOfs = c2state.stackPointerOfs + 1 ∧
    (emulateInstruction c2state).stack c2state.stackPointerOfs
      = (c2state.programCounter + 2) % 65536 ∧
    (emulateInstruction c2state).state = c2state.state ∧
    (emulateInstruction c2state).programCounter
      = (nextInstruction c2state).instruction.nnn :=
  chip8_C2_call_always_pushes c2state (by decide)

/-- C3 (code_bug): drawing sprite byte 0x40 at origin (0,0) and then sprite
byte 0x80 at origin (1,0) both put a sprite 1-bit on cell (1,0), yet the
cell ends at 0x40 after the first draw and at 0x40 XOR 0x80 = 0xC0 after
the second: the buffer cells hold positional bit-mask values rather than
booleans, and a 1-bit drawn onto an on cell leaves it on (0xC0 ≠ 0) even
though the collision was registered (V[0xF] = 1), contradicting the claim
that cells are boolean and that an on cell always toggles off. -/
theorem chip8_C3_cells_not_boolean :
    (emulateInstruction^[2] c3state).frameBuffer 1 = 0x40 ∧
    (emulateInstruction^[4] c3state).frameBuffer 1 = 0xC0 ∧
    (emulateInstruction^[4] c3state).V 0xF = 1 := by
  decide

/-- C4 (code_bug): after initialization the font initializer list holds only
70 bytes (14 glyphs — the rows for digits 0xA and 0xB are missing), so the
font-pointer instruction 0xF029 with V[X] = 0xC sets index_register to 60,
where memory holds F0 80 F0 80 F0 (the glyph the code labels E), not the C
glyph F0 80 80 80 F0, and byte 75 of the claimed 80-byte table (inside the
would-be F glyph) is 0. -/
theorem chip8_C4_font_missing_glyphs :
    font.length = 70 ∧
    (execute c4state).indexRegister = 60 ∧
    (initChip8 zeroChip8).ram 60 = 0xF0 ∧
    (initChip8 zeroChip8).ram 61 = 0x80 ∧
    (initChip8 zeroChip8).ram 62 = 0xF0 ∧
    (initChip8 zeroChip8).ram 63 = 0x80 ∧
    (initChip8 zeroChip8).ram 64 = 0xF0 ∧
    (initChip8 zeroChip8).ram 75 = 0 := by
  decide

/-- C5 (code_bug): no address is masked to the 12-bit space: starting from
index_register = 0xFFF and V[0] = 0xFF, instruction F01E leaves
index_register = 0x10FE (> 0xFFF), and the following F033 writes its BCD
digits to memory at 0x10FE, 0x10FF and 0x1100 — the ones digit 5 of
V[0] = 255 lands at address 0x1100, beyond the 4096-byte memory,
contradicting the claim that every address an instruction uses is wrapped
to 0–0xFFF. -/
theorem chip8_C5_unmasked_address :
    (emulateInstruction c5state).indexRegister = 0x10FE ∧
    c5state.ram 0x1100 = 0 ∧
    (emulateInstruction^[2] c5state).ram 0x1100 = 5 ∧
    0xFFF < 0x1100 := by
  decide

/-- C6 counterexample: running the spec's 4-instruction program
6005 6106 8014 00E0 for 4 cycles leaves register 0 at 11, not 7: opcode
8014 has low nibble 4, the register add, not the OR the claim computes. -/
theorem chip8_C6_result_is_eleven_not_seven :
    (emulateInstruction^[4] c6state).V 0 = 11 ∧
    ¬ (emulateInstruction^[4] c6state).V 0 = 7 := by
  decide

/-- C6 (amended): loading 6005 6106 8014 00E0 at 0x200 and running 4
decode/execute cycles leaves register 0 equal to 5 + 6 = 11 (8014 is the
flag-setting register add; the OR of the claim would be opcode 8011), the
pixel buffer all-false, and the draw flag set. -/
theorem chip8_C6_end_to_end_run :
    (emulateInstruction^[4] c6state).V 0 = 11 ∧
    allOff (emulateInstruction^[4] c6state).frameBuffer = true ∧
    (emulateInstruction^[4] c6state).draw = 1 := by
  decide

/-- C7 counterexample: the subtract 0x8015 with V[0] = V[1] = 5 leaves
register 0xF at 0, although V[X] ≥ V[Y] held before the operation, so the
claimed flag condition (1 iff V[X] ≥ V[Y]) is false: the code tests the
strict comparison V[X] > V[Y]. -/
theorem chip8_C7_equal_operands_flag_zero :
    c7state.V 0 = 5 ∧ c7state.V 1 = 5 ∧
    c7state.instruction.raw = 0x8015 ∧
    (execute c7state).V 0xF = 0 ∧
    ¬ (execute c7state).V 0xF = 1 := by
  decide

/-- C7 (amended): for 8-bit operand values in registers other than 0xF, the
register-to-register subtract 0x8XY5 sets register 0xF to 1 iff
V[X] > V[Y] held strictly before the operation (equal values give 0), and
stores (V[X] − V[Y]) mod 256 in V[X]. -/
theorem chip8_C7_sub_strict_flag (s : Chip8)
    (hop : s.instruction.raw >>> 12 = 0x8) (hn : s.instruction.n = 0x5)
    (hx : s.instruction.x ≠ 0xF) (hy : s.instruction.y ≠ 0xF)
    (hvx : s.V s.instruction.x < 256) (hvy : s.V s.instruction.y < 256) :
    (execute s).V 0xF = (if s.V s.instruction.y < s.V s.instruction.x then 1 else 0) ∧
    (execute s).V s.instruction.x
      = (s.V s.instruction.x + 256 - s.V s.instruction.y) % 256 ∧
    ((execute s).V s.instruction.x : Int)
      = ((s.V s.instruction.x : Int) - (s.V s.instruction.y : Int)) % 256 := by
  have h1 : (execute s).V 0xF
      = (if s.V s.instruction.y < s.V s.instruction.x then 1 else 0) := by
    simp [execute, exec8, hop, hn, upd, hx, Ne.symm hx]
  have h2 : (execute s).V s.instruction.x
      = (s.V s.instruction.x + 256 - s.V s.instruction.y) % 256 := by
    simp [execute, exec8, hop, hn, upd, hx, Ne.symm hx, hy, Ne.symm hy]
  refine ⟨h1, h2, ?_⟩
  rw [h2]
  omega

/-- C7 witness: the subtract theorem applied at V[0] = 7, V[1] = 3. -/
theorem chip8_C7_sub_strict_flag_witness :
    (execute c7wit).V 0xF = (if c7wit.V c7wit.instruction.y < c7wit.V c7wit.instruction.x
      then 1 else 0) ∧
    (execute c7wit).V c7wit.instruction.x
      = (c7wit.V c7wit.instruction.x + 256 - c7wit.V c7wit.instruction.y) % 256 ∧
    ((execute c7wit).V c7wit.instruction.x : Int)
      = ((c7wit.V c7wit.instruction.x : Int) - (c7wit.V c7wit.instruction.y : Int)) % 256 :=
  chip8_C7_sub_strict_flag c7wit (by decide) (by decide) (by decide) (by decide)
    (by decide) (by decide)

/-- C8 (confirmed): executing the sprite-draw step twice in succession with
no other mutation in between — "at the same coordinates" captured by the
hypotheses that the first draw leaves the origin registers V[X] and V[Y]
unchanged — restores the pixel buffer to its state before the first draw:
the draw XORs each touched cell with a value that depends only on memory,
the index register, the instruction and the origin, so the second pass
cancels the first cell by cell. -/
theorem chip8_C8_draw_twice_restores (s : Chip8)
    (hx : (execDraw s).V s.instruction.x = s.V s.instruction.x)
    (hy : (execDraw s).V s.instruction.y = s.V s.instruction.y) :
    (execDraw (execDraw s)).frameBuffer = s.frameBuffer := by
  funext c
  show (drawRows (execDraw s).ram (execDraw s).indexRegister
      ((execDraw s).V (execDraw s).instruction.x % WINDOW_WIDTH)
      (execDraw s).instruction.n 0
      ((execDraw s).V (execDraw s).instruction.y % WINDOW_HEIGHT)
      (execDraw s).frameBuffer 0).1 c = s.frameBuffer c
  have h1 : (execDraw s).instruction = s.instruction := rfl
  have h2 : (execDraw s).ram = s.ram := rfl
  have h3 : (execDraw s).indexRegister = s.indexRegister := rfl
  have h4 : (execDraw s).frameBuffer =
      (drawRows s.ram s.indexRegister (s.V s.instruction.x % WINDOW_WIDTH)
        s.instruction.n 0 (s.V s.instruction.y % WINDOW_HEIGHT) s.frameBuffer 0).1 := rfl
  rw [h1, h2, h3, hx, hy, h4]
  rw [drawRows_fst, drawRows_fst, Nat.xor_assoc, Nat.xor_self, Nat.xor_zero]

/-- C8 witness: double-draw restoration at a concrete state drawing sprite
byte 0xFF at (0,0) onto a buffer with cell 0 already on. -/
theorem chip8_C8_draw_twice_restores_witness :
    (execDraw (execDraw c8wit)).frameBuffer = c8wit.frameBuffer :=
  chip8_C8_draw_twice_restores c8wit (by decide) (by decide)

/-- C9 (confirmed): one timer tick decrements each timer by 1 when nonzero
and leaves it at 0 otherwise (on Nat, truncated subtraction by one); n
ticks leave each timer at its original value minus n, floored at 0, so a
timer never goes below zero; in particular 5 ticks on a delay timer of 3
leave it at exactly 0. -/
theorem chip8_C9_timers_floor :
    (∀ s : Chip8, (updateTimers s).delayTimer = s.delayTimer - 1 ∧
      (updateTimers s).soundTimer = s.soundTimer - 1) ∧
    (∀ (n : Nat) (s : Chip8),
      (updateTimers^[n] s).delayTimer = s.delayTimer - n ∧
      (updateTimers^[n] s).soundTimer = s.soundTimer - n) ∧
    (updateTimers^[5] c9state).delayTimer = 0 :=
  ⟨updateTimers_delay, updateTimers_iterate, by decide⟩

/-- C10 (confirmed): when the register add 0x8XY4 targets register 0xF
(X = 0xF), the final value of register 0xF is the carry bit of the sum of
the original operands — 1 if it exceeded 255, else 0 — not the truncated
sum, because the code computes the carry first, stores the truncated sum,
and writes the carry last. -/
theorem chip8_C10_add_flag_target_gets_carry (s : Chip8)
    (hop : s.instruction.raw >>> 12 = 0x8) (hn : s.instruction.n = 0x4)
    (hx : s.instruction.x = 0xF) :
    (execute s).V 0xF = if 0xFF < s.V 0xF + s.V s.instruction.y then 1 else 0 := by
  simp [execute, exec8, hop, hn, hx, upd]

/-- C10 witness: the aliased add at V[0xF] = 200, V[1] = 100 (sum 300,
carry 1). -/
theorem chip8_C10_add_flag_target_gets_carry_witness :
    (execute c10wit).V 0xF = if 0xFF < c10wit.V 0xF + c10wit.V c10wit.instruction.y
      then 1 else 0 :=
  chip8_C10_add_flag_target_gets_carry c10wit (by decide) (by decide) (by decide)

end Chip8Emu
